import Mathlib

/-!
Verification of the match-scoring, content-selection and rendering core of the
career-companion-ai repository, shallowly embedded from the Python sources:
`src/scrape_pending_jobs.py` (scorer and priority bucketing, identical copy in
`src/add_new_linkedin_jobs.py`), `src/agents/application_kit_parser.py`
(achievement selection, kit-variant and company-override lookup),
`src/agents/personal_context_manager.py` (connection finding) and
`src/agents/enhanced_template_engine.py` (resume / cover-letter rendering).

Strings are embedded as `List Char`; Python `s.lower()` is modelled as an
ASCII lowercase map (all keyword tables in the source are ASCII); Python
`needle in hay` is the substring test `hasSub`.  Python floats carry only
small decimal fractions here and are modelled as exact rationals `ℚ`.
-/

namespace JobSearch

/-- A Python string, embedded as its list of characters. -/
abbrev Str := List Char

/-- ASCII lowercasing of one character, modelling Python `str.lower` on the
ASCII strings used by this repository. -/
def lowerChar (c : Char) : Char :=
  if 65 ≤ c.toNat ∧ c.toNat ≤ 90 then Char.ofNat (c.toNat + 32) else c

/-- Python `s.lower()`. -/
def lowerL (s : Str) : Str := s.map lowerChar

/-- Tests an initial segment: `leadMatch needle hay` is true when `needle` is an initial segment of
`hay`. -/
def leadMatch : Str → Str → Bool
  | [], _ => true
  | _ :: _, [] => false
  | a :: as, b :: bs => a == b && leadMatch as bs

/-- Python substring containment `needle in hay`.  The empty needle is
contained in every string, as in Python. -/
def hasSub (needle : Str) : Str → Bool
  | [] => needle.isEmpty
  | c :: t => leadMatch needle (c :: t) || hasSub needle t

/-- Python `s.replace(pat, rep)`: replace every non-overlapping occurrence of
`pat`, scanning left to right.  (The source never calls `replace` with an
empty pattern; for an empty pattern this model returns `s` unchanged.) -/
def replaceAll (pat rep : Str) : Str → Str
  | [] => []
  | c :: t =>
    if pat.isEmpty then c :: t
    else if leadMatch pat (c :: t) then
      rep ++ replaceAll pat rep (List.drop (pat.length - 1) t)
    else c :: replaceAll pat rep t
  termination_by s => s.length
  decreasing_by
  · simp only [List.length_drop, List.length_cons]
    omega
  · simp only [List.length_cons]
    omega

/-- Helper for Python `str.find`: first index `≥ i` (counting from the start
of the original string) at which `sub` begins in the remaining text, `-1`
when there is none. -/
def findIdxAux (sub : Str) : Str → ℕ → Int
  | [], i => if leadMatch sub [] then (i : Int) else -1
  | c :: t, i => if leadMatch sub (c :: t) then (i : Int) else findIdxAux sub t (i + 1)

/-- Python `s.find(sub, start)` with the Python handling of a negative `start`
(interpreted relative to the end of the string, clamped at 0). -/
def pyFind (sub s : Str) (start : Int) : Int :=
  let n : Int := (s.length : Int)
  let b : ℕ := (if start < 0 then max 0 (n + start) else min start n).toNat
  findIdxAux sub (List.drop b s) b

/- ### Personal context manager: `find_connections`
   (`src/agents/personal_context_manager.py`) -/

/-- One entry of the static `self.experiences` table of
`PersonalContextManager.__init__`. -/
structure ExperienceRecord where
  key : Str
  description : Str
  metrics : Str
  relevance_keywords : List Str
  companies : List Str
  talking_point : Str
deriving DecidableEq

/-- One dict appended to `connections["relevant_experiences"]` in
`find_connections` (the fields written at
`personal_context_manager.py:198-204`). -/
structure ScoredExperience where
  exp_type : Str
  description : Str
  metrics : Str
  talking_point : Str
  relevance_score : ℕ
deriving DecidableEq

/-- Python `job_text = f"{job_title} {job_description} {company_name}".lower()`
(`personal_context_manager.py:189`). -/
def jobText (company_name job_title job_description : Str) : Str :=
  lowerL (job_title ++ [' '] ++ job_description ++ [' '] ++ company_name)

/-- Modelled from the spec: the keyword count summed at
`personal_context_manager.py:192`, whose comprehension was corrupted by the
repository anonymizer; spec §4.2 reads "relevanceScore = count of its
relevanceKeywords found as substrings in the concatenated lowercased
(title+description+company) text". -/
def keywordCount (r : ExperienceRecord) (jt : Str) : ℕ :=
  (r.relevance_keywords.filter (fun k => hasSub k jt)).length

/-- Python `company_match = any(comp.lower() in company_name.lower() for comp in
experience.get("companies", []))` (`personal_context_manager.py:195`). -/
def companyMatch (r : ExperienceRecord) (company_name : Str) : Bool :=
  r.companies.any (fun comp => hasSub (lowerL comp) (lowerL company_name))

/-- The list built by the `for exp_key, experience in self.experiences`
loop of `find_connections` (`personal_context_manager.py:191-204`): a record
is appended iff `relevance_score > 0 or company_match`, carrying
`relevance_score + (2 if company_match else 0)`. -/
def keptExperiences (records : List ExperienceRecord)
    (company_name job_title job_description : Str) : List ScoredExperience :=
  records.filterMap (fun r =>
    if keywordCount r (jobText company_name job_title job_description) > 0
        || companyMatch r company_name then
      some ⟨r.key, r.description, r.metrics, r.talking_point,
        keywordCount r (jobText company_name job_title job_description)
          + (if companyMatch r company_name then 2 else 0)⟩
    else none)

/-- Comparison used to model the Python stable descending sort
(`list.sort(key=..., reverse=True)`): after pairing each element with its
original position, a stable descending sort by score is exactly the sort by
"score strictly larger, or equal score and original position not later".
This relation is linear on lists of distinct positions, so any correct sort
by it produces the unique stably-descending-sorted permutation. -/
def rankLE {α : Type} (a b : ℕ × ℕ × α) : Prop :=
  b.1 < a.1 ∨ (a.1 = b.1 ∧ a.2.1 ≤ b.2.1)

instance {α : Type} : DecidableRel (@rankLE α) := fun a b => by
  unfold rankLE
  infer_instance

instance {α : Type} : IsTotal (ℕ × ℕ × α) rankLE := by
  constructor
  intro a b
  unfold rankLE
  omega

instance {α : Type} : IsTrans (ℕ × ℕ × α) rankLE := by
  constructor
  intro a b c hab hbc
  unfold rankLE at hab hbc ⊢
  omega

/-- The kept experiences paired with (score, original position, record). -/
def scoredKept (records : List ExperienceRecord)
    (company_name job_title job_description : Str) :
    List (ℕ × ℕ × ScoredExperience) :=
  ((keptExperiences records company_name job_title job_description).enum).map
    (fun p => (p.2.relevance_score, p.1, p.2))

/-- The sort `connections["relevant_experiences"].sort(key=lambda x:
x["relevance_score"], reverse=True)` (`personal_context_manager.py:207`),
modelled as the unique stable descending sort. -/
def sortedKept (records : List ExperienceRecord)
    (company_name job_title job_description : Str) :
    List (ℕ × ℕ × ScoredExperience) :=
  List.insertionSort rankLE
    (scoredKept records company_name job_title job_description)

/-- The `relevant_experiences` list returned inside the connections dict by
`find_connections`: kept records, stably sorted by descending
`relevance_score`, truncated to the top 3
(`personal_context_manager.py:207-208`). -/
def relevantExperiencesCore (records : List ExperienceRecord)
    (company_name job_title job_description : Str) : List ScoredExperience :=
  (((sortedKept records company_name job_title job_description).map
    (fun t => t.2.2)).take 3)

/-- The static `self.experiences` table of `PersonalContextManager.__init__`
(`personal_context_manager.py:16-73`); the payload strings are abbreviated to
their content-bearing parts used by no theorem, while every
`relevance_keywords` and `companies` list is transcribed exactly. -/
def experiences : List ExperienceRecord :=
  [⟨("gaming_retention").toList,
    ("Scaled e-grocery to 20K+ users with gamified engagement achieving 70% cohort retention").toList,
    ("<$10 CAC, LTV >$1,000").toList,
    [("gaming").toList, ("retention").toList, ("engagement").toList,
     ("monetization").toList, ("economy").toList],
    [("Scopely").toList, ("Epic Games").toList, ("Roblox").toList, ("Unity").toList],
    ("I understand the delicate balance of engagement and monetization from scaling Subziwalla with gamified retention mechanics").toList⟩,
   ⟨("ai_transformation").toList,
    ("Reduced PM overhead by 80% through multi-agent AI systems at [CURRENT_COMPANY]").toList,
    ("Prevented $400K churn, identified $6M ARR opportunities").toList,
    [("ai").toList, ("llm").toList, ("genai").toList, ("automation").toList,
     ("agent").toList, ("ml").toList],
    [("OpenAI").toList, ("Anthropic").toList, ("Meta").toList, ("Google").toList,
     ("Microsoft").toList],
    ("Built production multi-agent systems achieving 80% efficiency gains with evaluation frameworks and guardrails").toList⟩,
   ⟨("platform_building").toList,
    ("Architected reusable LLM platform with 50+ prompt templates and evaluation harnesses").toList,
    ("Cut prototype cycles from days to hours").toList,
    [("platform").toList, ("infrastructure").toList, ("developer").toList,
     ("api").toList, ("framework").toList],
    [("ClickUp").toList, ("Stripe").toList, ("Twilio").toList, ("Datadog").toList],
    ("I build platforms that enable other teams to ship faster - like our prompt library that cut prototyping from days to hours").toList⟩,
   ⟨("edtech_learning").toList,
    ("Parent perspective on EdTech + AI-assisted learning systems").toList,
    ("27% productivity lift across teams through AI enablement").toList,
    [("education").toList, ("learning").toList, ("edtech").toList,
     ("training").toList, ("curriculum").toList],
    [("Committee for Children").toList, ("Nerdy").toList, ("Duolingo").toList,
     ("Coursera").toList],
    ("As a parent using EdTech tools daily, I bring both user empathy and technical expertise to learning products").toList⟩,
   ⟨("b2b_saas").toList,
    ("Scaled PropTech SaaS from concept to enterprise pilots as CPO at [PREVIOUS_COMPANY]").toList,
    ("12% MoM active-use growth during rollout").toList,
    [("b2b").toList, ("saas").toList, ("enterprise").toList, ("sales").toList,
     ("gtm").toList],
    [("Salesforce").toList, ("HubSpot").toList, ("ClickUp").toList,
     ("Monday.com").toList],
    ("Led 0-1 to enterprise pilots, understanding both startup velocity and enterprise governance needs").toList⟩,
   ⟨("healthcare_regulated").toList,
    ("Navigated regulated environments with HIPAA compliance and security reviews").toList,
    ("Maintained velocity while meeting compliance requirements").toList,
    [("healthcare").toList, ("hipaa").toList, ("compliance").toList,
     ("regulation").toList, ("security").toList],
    [("Bicycle Health").toList, ("Oscar Health").toList, ("One Medical").toList],
    ("I have successfully balanced innovation speed with regulatory compliance in sensitive data environments").toList⟩,
   ⟨("martech_growth").toList,
    ("Achieved 40% targeted-campaign conversion with personalization at Subziwalla").toList,
    ("Built retention programs yielding 70% cohort retention").toList,
    [("marketing").toList, ("martech").toList, ("growth").toList,
     ("conversion").toList, ("personalization").toList],
    [("NBCUniversal").toList, ("Adobe").toList, ("Mailchimp").toList,
     ("Klaviyo").toList],
    ("I have built personalization engines that achieved 40% conversion rates through data-driven segmentation").toList⟩,
   ⟨("data_products").toList,
    ("Built data ingestion pipelines with anomaly detection and entity resolution").toList,
    ("Reduced downstream incidents by 40%").toList,
    [("data").toList, ("analytics").toList, ("pipeline").toList,
     ("quality").toList, ("ingestion").toList],
    [("Databricks").toList, ("Snowflake").toList, ("Palantir").toList,
     ("Tableau").toList],
    ("Implemented data health SLAs and anomaly detection reducing incidents by 40%").toList⟩]

/-- Function `PersonalContextManager.find_connections`, restricted to the
`relevant_experiences` field of the connections dict it returns — the only
field any specified component consumes (the scorer tests its
non-emptiness). -/
def find_connections (company_name job_title job_description : Str) :
    List ScoredExperience :=
  relevantExperiencesCore experiences company_name job_title job_description

/- ### Scorer (`src/scrape_pending_jobs.py:98-157`, identical at
   `src/add_new_linkedin_jobs.py:99-156`) -/

/-- A scraped job dict as consumed by `_calculate_match_score`; each absent
dict key reads as the empty string via `job.get(k, "")`, so a missing field
is the empty-string value of that field here.  `personal_connections` is the
`relevant_experiences` list stored by `process_scraped_job` before scoring
(`scrape_pending_jobs.py:76-81`). -/
structure Job where
  title : Str
  company : Str
  location : Str
  workplace_type : Str
  description : Str
  seniority_level : Str
  required_experience : Str
  personal_connections : List ScoredExperience
deriving DecidableEq

/-- Title block of `_calculate_match_score`
(`scrape_pending_jobs.py:110-115`): two independent additive sub-rules on the
lowercased title, weight 0.25. -/
def title_contrib (job : Job) : ℚ :=
  (if hasSub (("product manager").toList) (lowerL job.title) then
    (1/4 : ℚ) * (7/10) else 0)
  + (if (hasSub (("senior").toList) (lowerL job.title)
        || hasSub (("staff").toList) (lowerL job.title)
        || hasSub (("principal").toList) (lowerL job.title)
        || hasSub (("lead").toList) (lowerL job.title)) then
    (1/4 : ℚ) * (3/10) else 0)

/-- Seniority block of `_calculate_match_score`
(`scrape_pending_jobs.py:117-126`): a first-match-wins `if`/`elif`/`elif`
chain, weight 0.20. -/
def seniority_contrib (job : Job) : ℚ :=
  if (hasSub (("senior").toList) (lowerL job.seniority_level)
      || hasSub (("senior").toList) (lowerL job.title)) then
    (1/5 : ℚ) * (8/10)
  else if (hasSub (("mid").toList) (lowerL job.seniority_level)
      || hasSub (("5").toList) (lowerL job.required_experience)
      || hasSub (("7").toList) (lowerL job.required_experience)) then
    (1/5 : ℚ) * 1
  else if (hasSub (("director").toList) (lowerL job.title)
      || hasSub (("principal").toList) (lowerL job.title)) then
    (1/5 : ℚ) * (6/10)
  else 0

/-- The fixed AI keyword list of the technical block
(`scrape_pending_jobs.py:132-133`). -/
def ai_keywords : List Str :=
  [("ai").toList, ("artificial intelligence").toList,
   ("machine learning").toList, ("llm").toList, ("genai").toList,
   ("generative").toList, ("nlp").toList, ("deep learning").toList]

/-- Modelled from the spec: the keyword count `ai_count` at
`scrape_pending_jobs.py:135`, whose comprehension was corrupted by the
repository anonymizer; spec §4.1 reads "count occurrences of any of {ai,
artificial intelligence, machine learning, llm, genai, generative, nlp,
deep learning} as substrings in lowercased description". -/
def ai_count (job : Job) : ℕ :=
  (ai_keywords.filter (fun k => hasSub k (lowerL job.description))).length

/-- Technical block of `_calculate_match_score`
(`scrape_pending_jobs.py:129-139`): full weight 0.25 at two or more keyword
matches, 0.7 of it at exactly one. -/
def technical_contrib (job : Job) : ℚ :=
  if 2 ≤ ai_count job then (1/4 : ℚ)
  else if 1 ≤ ai_count job then (1/4 : ℚ) * (7/10)
  else 0

/-- Location block of `_calculate_match_score`
(`scrape_pending_jobs.py:141-150`), weight 0.15. -/
def location_contrib (job : Job) : ℚ :=
  if (hasSub (("remote").toList) (lowerL job.location)
      || hasSub (("remote").toList) (lowerL job.workplace_type)) then
    (3/20 : ℚ)
  else if (hasSub (("new york").toList) (lowerL job.location)
      || hasSub (("nyc").toList) (lowerL job.location)
      || hasSub (("ny,").toList) (lowerL job.location)) then
    (3/20 : ℚ) * (8/10)
  else if hasSub (("hybrid").toList) (lowerL job.workplace_type) then
    (3/20 : ℚ) * (6/10)
  else 0

/-- Personal-connection block of `_calculate_match_score`
(`scrape_pending_jobs.py:152-155`): full weight 0.15 when
`connections.get("relevant_experiences")` is a non-empty list. -/
def connection_contrib (job : Job) : ℚ :=
  if job.personal_connections = [] then 0 else (3/20 : ℚ)

/-- Function `_calculate_match_score` (`scrape_pending_jobs.py:98-157`): the running
`score` accumulates the five independent blocks and is returned as
`min(score, 1.0)`. -/
def calculate_match_score (job : Job) : ℚ :=
  min (title_contrib job + seniority_contrib job + technical_contrib job
    + location_contrib job + connection_contrib job) 1

/-- The priority buckets written into `scraped_data["priority"]`. -/
inductive Priority where
  | HIGH
  | MEDIUM
  | LOW
deriving DecidableEq

/-- Priority bucketing of `process_scraped_job`
(`scrape_pending_jobs.py:87-92`). -/
def priority_of (score : ℚ) : Priority :=
  if 7/10 ≤ score then Priority.HIGH
  else if 1/2 ≤ score then Priority.MEDIUM
  else Priority.LOW

/- ### Content selector: `select_achievements`
   (`src/agents/application_kit_parser.py:540-572`) -/

/-- The fixed `keyword_mapping` table of `select_achievements`
(`application_kit_parser.py:548-555`); `‑` is the non-breaking hyphen
present in the source. -/
def keyword_mapping : List (Str × List Str) :=
  [(("automation").toList,
    [("multi‑agent").toList, ("reduced PM busywork").toList,
     ("prototype cycle").toList]),
   (("revenue").toList,
    [("$6M ARR").toList, ("$400K").toList, ("churn").toList,
     ("retention").toList]),
   (("data").toList,
    [("data‑health").toList, ("anomaly detection").toList,
     ("entity resolution").toList]),
   (("platform").toList,
    [("LLM experimentation").toList, ("notebook").toList,
     ("guardrails").toList]),
   (("scale").toList,
    [("20,000+ users").toList, ("CAC").toList, ("LTV").toList]),
   (("governance").toList,
    [("responsible‑AI").toList, ("audit trails").toList,
     ("Security/Legal").toList])]

/-- Modelled from the spec: the per-achievement score loop of
`select_achievements` (`application_kit_parser.py:562-566`), whose
`score = 0` / `for keyword, indicators in keyword_mapping.items():` header
line was corrupted by the repository anonymizer (the loop body survives in
the source); spec §4.2 reads "integer score = number of (category, indicator)
pairs such that category keyword appears in the lowercased description AND
indicator appears in the lowercased achievement text". -/
def achievementScore (description_lower achievement : Str) : ℕ :=
  (keyword_mapping.map (fun p =>
    if hasSub p.1 description_lower then
      (p.2.filter (fun ind => hasSub (lowerL ind) (lowerL achievement))).length
    else 0)).sum

/-- The `selected` list of `(score, achievement)` pairs in bank order
(`application_kit_parser.py:561-568`), additionally tagged with the original
position to express the stable sort. -/
def scoredAchievements (job_description : Str) (bank : List Str) :
    List (ℕ × ℕ × Str) :=
  (bank.enum).map
    (fun p => (achievementScore (lowerL job_description) p.2, p.1, p.2))

/-- The sort `selected.sort(key=lambda x: x[0], reverse=True)`
(`application_kit_parser.py:571`): the Python sort is stable also with
`reverse=True`, modelled as the unique stable descending sort via
`rankLE`. -/
def rankedAchievements (job_description : Str) (bank : List Str) :
    List (ℕ × ℕ × Str) :=
  List.insertionSort rankLE (scoredAchievements job_description bank)

/-- Function `select_achievements` (`application_kit_parser.py:540-572`) with the
achievements bank (`self.senior_kit["achievements_bank"]` in the source)
passed explicitly, as in the spec contract:   empty bank returns the empty
list, otherwise the stably score-sorted bank truncated to `count`. -/
def select_achievements (job_description : Str) (bank : List Str)
    (count : ℕ) : List Str :=
  if bank = [] then []
  else ((rankedAchievements job_description bank).map (fun t => t.2.2)).take count

/- ### Application kits and renderer
   (`src/agents/application_kit_parser.py:512-538`,
   `src/agents/enhanced_template_engine.py`) -/

/-- One entry of `role_variants` as parsed by `_extract_role_variants`
(`application_kit_parser.py:228-259`): every parsed variant carries a role
line, a summary and top bullets. -/
structure RoleVariant where
  role : Str
  summary : Str
  top_bullets : List Str
deriving DecidableEq

/-- One experience entry of a kit (`_extract_experience` /
`_extract_director_experience`). -/
structure ExperienceEntry where
  company : Str
  title : Str
  scope : Option Str
  dates : Str
  bullets : List Str
deriving DecidableEq

/-- A parsed application kit, per spec §3 `ApplicationKit`: structured data
supplied by the kit loader (the regex markdown parsing is out of the
specified core), with the union of the fields the renderer reads from the
senior and director kit dicts. -/
structure Kit where
  header_name : Str
  header_location : Str
  header_phone : Str
  header_email : Str
  header_linkedin : Str
  header_title : Str
  summary : Str
  signature_outcomes : List Str
  core_skills : List (Str × Str)
  experience : List ExperienceEntry
  education : Str
  selected_projects : List Str
  ats_keywords : Str
  role_variants : List (Str × RoleVariant)
  achievements_bank : List Str
  executive_summary : List Str
  portfolio_outcomes : List Str
  core_capabilities : List (Str × Str)
  speaking_media : List Str
  director_keywords : Str
  cover_letter_template : Str
  cover_letter_intros : List (Str × Str)
deriving DecidableEq

/-- The kit state of the template engine (`EnhancedTemplateEngine.__init__`). -/
structure Engine where
  senior_kit : Kit
  director_kit : Kit
deriving DecidableEq

/-- Python `dict.get(key)` on a parsed kit dict: `none` when the key is
absent. -/
def varLookup (kit : Kit) (key : Str) : Option RoleVariant :=
  ((kit.role_variants).find? (fun p => p.1 = key)).map (fun p => p.2)

/-- Python `dict.get(key)` on `cover_letter_intros`. -/
def introLookup (kit : Kit) (key : Str) : Option Str :=
  ((kit.cover_letter_intros).find? (fun p => p.1 = key)).map (fun p => p.2)

/-- The director-level title indicators of `get_variant_for_role`
(`application_kit_parser.py:517`). -/
def director_indicators : List Str :=
  [("director").toList, ("principal").toList, ("staff").toList,
   ("head of").toList, ("vp").toList, ("vice president").toList]

/-- Function `get_variant_for_role` (`application_kit_parser.py:512-522`); the
`company` parameter of the source is unused there and omitted.  Returns the
string `"director"` or `"senior"`. -/
def get_variant_for_role (job_title : Str) : Str :=
  if director_indicators.any (fun ind => hasSub ind (lowerL job_title)) then
    ("director").toList
  else ("senior").toList

/-- Function `get_company_variant` (`application_kit_parser.py:524-538`): an
`if`/`elif` chain of case-insensitive substring tests against the four
hardcoded company keys, each selecting the corresponding
`senior_kit["role_variants"]` entry. -/
def get_company_variant (senior_kit : Kit) (company : Str) : Option RoleVariant :=
  if hasSub (("sparkplug").toList) (lowerL company) then
    varLookup senior_kit (("sparkplug").toList)
  else if hasSub (("zillow").toList) (lowerL company) then
    varLookup senior_kit (("zillow").toList)
  else if hasSub (("crowdstrike").toList) (lowerL company) then
    varLookup senior_kit (("crowdstrike").toList)
  else if hasSub (("nextera").toList) (lowerL company) then
    varLookup senior_kit (("nextera").toList)
  else none

/-- Prepend the `"- "` bullet marker (`f"- {bullet}"` in the source). -/
def bline (s : Str) : Str := ("- ").toList ++ s

/-- Header block of `render_resume`
(`enhanced_template_engine.py:36-40`). -/
def headerBlock (kit : Kit) : List Str :=
  [("**").toList ++ kit.header_name ++ ("**").toList,
   kit.header_location ++ (" • ").toList ++ kit.header_phone
     ++ (" • ").toList ++ kit.header_email ++ (" • ").toList
     ++ kit.header_linkedin,
   []]

/-- Title block of `render_resume` (`enhanced_template_engine.py:42-46`):
the role line of the company variant when an override matched, else the kit
header title. -/
def titleBlock (company_variant : Option RoleVariant) (kit : Kit) : List Str :=
  match company_variant with
  | some v => [("**").toList ++ v.role ++ ("**").toList]
  | none => [("**").toList ++ kit.header_title ++ ("**").toList]

/-- Summary block of `render_resume` (`enhanced_template_engine.py:48-53`). -/
def summaryBlock (company_variant : Option RoleVariant) (kit : Kit) : List Str :=
  (match company_variant with
   | some v => [v.summary]
   | none => [kit.summary]) ++ [[]]

/-- Outcomes block of `render_resume` (`enhanced_template_engine.py:55-75`):
executive summary and portfolio outcomes for the director variant; for the
senior variant the signature outcomes, with the top
bullets prepended when an override matched. -/
def outcomesBlock (isDirector : Bool) (company_variant : Option RoleVariant)
    (kit : Kit) : List Str :=
  (if isDirector then
    [("**executive summary (what you get)**").toList]
      ++ kit.executive_summary.map bline ++ [[]]
      ++ [("**select portfolio outcomes**").toList]
      ++ kit.portfolio_outcomes.map bline
  else
    [("**signature outcomes**").toList]
      ++ (match company_variant with
          | some v => v.top_bullets.map bline
          | none => [])
      ++ (kit.signature_outcomes.take 5).map bline) ++ [[]]

/-- Skills block of `render_resume` (`enhanced_template_engine.py:77-95`),
including the section separator and experience heading lines. -/
def skillsBlock (isDirector : Bool) (kit : Kit) : List Str :=
  (if isDirector then
    [("**core capabilities**").toList]
      ++ kit.core_capabilities.map (fun p =>
        ("- **").toList ++ p.1 ++ (":** ").toList ++ p.2)
  else
    [("**core skills**").toList]
      ++ kit.core_skills.map (fun p =>
        ("- ").toList ++ p.1 ++ (": ").toList ++ p.2))
  ++ [[], ("---").toList, [], ("## experience").toList, []]

/-- One experience entry of the experience block of `render_resume`
(`enhanced_template_engine.py:97-117`): the heading line (with the director
scope line when present), then either the selected achievements (for the
`lovingly` employer) or the first four stored bullets. -/
def expEntryLines (isDirector : Bool) (senior_bank : List Str)
    (job_description : Str) (e : ExperienceEntry) : List Str :=
  (match isDirector, e.scope with
   | true, some sc =>
     [("**").toList ++ e.company ++ (" — ").toList ++ e.title
       ++ ("** *").toList ++ sc ++ ("* (").toList ++ e.dates ++ (")").toList]
   | _, _ =>
     [("**").toList ++ e.company ++ (" — ").toList ++ e.title
       ++ ("** (").toList ++ e.dates ++ (")").toList])
  ++ (if hasSub (("lovingly").toList) (lowerL e.company) then
      (select_achievements (lowerL job_description) senior_bank 6).map bline
    else (e.bullets.take 4).map bline)
  ++ [[]]

/-- Experience block of `render_resume`
(`enhanced_template_engine.py:97-117`). -/
def experienceBlock (isDirector : Bool) (senior_bank : List Str)
    (job_description : Str) (kit : Kit) : List Str :=
  (kit.experience.map (expEntryLines isDirector senior_bank job_description)).flatten

/-- Education, projects-or-speaking and ATS keyword blocks of
`render_resume` (`enhanced_template_engine.py:119-141`). -/
def tailBlock (isDirector : Bool) (kit : Kit) : List Str :=
  [("**education**").toList, kit.education, []]
  ++ (if isDirector then
      [("**speaking & media**").toList] ++ kit.speaking_media
    else
      [("**selected projects & ip**").toList]
        ++ kit.selected_projects.map bline)
  ++ [[]]
  ++ [("**keywords for ats**").toList,
      if isDirector then kit.director_keywords else kit.ats_keywords]

/-- The `resume_lines` list built by `render_resume`
(`enhanced_template_engine.py:23-141`): the successive `append` blocks of
the source, concatenated.  The kit is the director kit exactly when
`get_variant_for_role` returns `"director"`; the company variant is always
looked up in the senior kit. -/
def render_resume_lines (eng : Engine) (job : Job) : List Str :=
  (if get_variant_for_role job.title = ("director").toList then
    headerBlock eng.director_kit
      ++ titleBlock (get_company_variant eng.senior_kit job.company) eng.director_kit
      ++ summaryBlock (get_company_variant eng.senior_kit job.company) eng.director_kit
      ++ outcomesBlock true (get_company_variant eng.senior_kit job.company) eng.director_kit
      ++ skillsBlock true eng.director_kit
      ++ experienceBlock true eng.senior_kit.achievements_bank job.description eng.director_kit
      ++ tailBlock true eng.director_kit
  else
    headerBlock eng.senior_kit
      ++ titleBlock (get_company_variant eng.senior_kit job.company) eng.senior_kit
      ++ summaryBlock (get_company_variant eng.senior_kit job.company) eng.senior_kit
      ++ outcomesBlock false (get_company_variant eng.senior_kit job.company) eng.senior_kit
      ++ skillsBlock false eng.senior_kit
      ++ experienceBlock false eng.senior_kit.achievements_bank job.description eng.senior_kit
      ++ tailBlock false eng.senior_kit)

/-- Function `render_resume` (`enhanced_template_engine.py:23-143`):
`"\n".join(resume_lines)`. -/
def render_resume (eng : Engine) (job : Job) : Str :=
  List.intercalate ['\n'] (render_resume_lines eng job)

/- ### Cover letter rendering
   (`src/agents/enhanced_template_engine.py:145-225`) -/

/-- The inline fallback cover-letter template of `render_cover_letter`
(`enhanced_template_engine.py:156-174`), transcribed with its exact line
breaks and trailing markdown double spaces. -/
def fallback_template : Str :=
  ("Dear Hiring Manager,\n\nYou\x27re looking for a product leader who can turn an AI roadmap into shipped outcomes. That\x27s where I do my best work. I operate end-to-end: clarify the problem, design the workflow, ship with guardrails, and measure adoption and ROI.\n\n**Why [Company], why me**  \n• **Roadmap → results:** I translate strategy into user stories, acceptance criteria, and weekly releases.  \n• **Hands-on:** I build and ship AI-assisted workflows (agents, evals, guardrails) — not slideware.  \n• **Governed speed:** I partner early with Security/Legal so we move fast without risking compliance.\n\n**90-day plan**  \n1) **Assess & align** current tools, datasets, and use cases; define success metrics (adoption, cycle time, quality).  \n2) **Pilot with proof**: 1–2 high-leverage pilots with weekly evals and clear decision gates.  \n3) **Operationalize** with playbooks and enablement; ramp shadow-mode → production.  \n4) **Govern** via lightweight review and audit trails.\n\nI\x27d love to share shipped examples and discuss where we can deliver impact in quarter one.\n\nSincerely,  \n[YOUR_NAME]").toList

/-- The first-paragraph anchor searched for by the intro insertion
(`enhanced_template_engine.py:198`). -/
def first_para_marker : Str :=
  ("That\x27s where I do my best work.").toList

/-- The company-specific intro selected by the `if`/`elif` chain at
`enhanced_template_engine.py:185-193`. -/
def companyIntro (senior_kit : Kit) (company : Str) : Option Str :=
  if hasSub (("sparkplug").toList) (lowerL company) then
    introLookup senior_kit (("sparkplug").toList)
  else if hasSub (("zillow").toList) (lowerL company) then
    introLookup senior_kit (("zillow").toList)
  else if hasSub (("crowdstrike").toList) (lowerL company) then
    introLookup senior_kit (("crowdstrike").toList)
  else if hasSub (("nextera").toList) (lowerL company) then
    introLookup senior_kit (("nextera").toList)
  else none

/-- The intro insertion of `render_cover_letter`
(`enhanced_template_engine.py:196-203`): when an intro was found and the
blank line after the first paragraph exists, splice the intro in after it;
otherwise the letter is unchanged. -/
def insertIntro (intro? : Option Str) (letter : Str) : Str :=
  match intro? with
  | none => letter
  | some intro =>
    let fpe : Int :=
      pyFind (['\n', '\n']) letter (pyFind first_para_marker letter 0)
    if fpe = -1 then letter
    else
      letter.take (fpe + 2).toNat ++ intro ++ ['\n', '\n']
        ++ letter.drop (fpe + 2).toNat

/-- The letter produced by `render_cover_letter` up to but excluding the
90-day-plan customization (`enhanced_template_engine.py:148-203`):
template choice, placeholder substitution, intro insertion. -/
def pre_rewrite_letter (eng : Engine) (job : Job) : Str :=
  insertIntro (companyIntro eng.senior_kit job.company)
    (replaceAll (("[Hiring Manager]").toList) (("Hiring Manager").toList)
      (replaceAll (("[Company]").toList) job.company
        (if eng.senior_kit.cover_letter_template = [] then fallback_template
         else eng.senior_kit.cover_letter_template)))

/-- The phrase rewritten by the platform and data branches
(`enhanced_template_engine.py:211,216`). -/
def pilots_phrase : Str := ("1–2 high-leverage pilots").toList

/-- The phrase rewritten by the revenue/growth branch
(`enhanced_template_engine.py:221`). -/
def metrics_phrase : Str := ("adoption, cycle time, quality").toList

/-- Platform replacement clause (`enhanced_template_engine.py:212`). -/
def platform_clause : Str :=
  ("platform capabilities that enable multiple teams").toList

/-- Data replacement clause (`enhanced_template_engine.py:217`). -/
def data_clause : Str :=
  ("data ingestion and quality pilots with measurable SLAs").toList

/-- Revenue/growth replacement clause
(`enhanced_template_engine.py:222`). -/
def revenue_clause : Str :=
  ("adoption, revenue impact, retention").toList

/-- The 90-day-plan customization of `render_cover_letter`
(`enhanced_template_engine.py:205-224`): an `if`/`elif`/`elif` chain on the
lowercased job description, applying at most one phrase rewrite. -/
def customize_ninety_day (description_lower letter : Str) : Str :=
  if hasSub (("platform").toList) description_lower then
    replaceAll pilots_phrase platform_clause letter
  else if hasSub (("data").toList) description_lower then
    replaceAll pilots_phrase data_clause letter
  else if (hasSub (("revenue").toList) description_lower
      || hasSub (("growth").toList) description_lower) then
    replaceAll metrics_phrase revenue_clause letter
  else letter

/-- Function `render_cover_letter` (`enhanced_template_engine.py:145-225`). -/
def render_cover_letter (eng : Engine) (job : Job) : Str :=
  customize_ninety_day (lowerL job.description) (pre_rewrite_letter eng job)

/- ### Claim-side definitions (restating the claims, to be compared with the
   code-level definitions above) -/

/-- Claim C3 tier (a): "senior" occurs in the lowercased seniority field or
lowercased title. -/
def seniorTierCond (job : Job) : Bool :=
  hasSub (("senior").toList) (lowerL job.seniority_level)
    || hasSub (("senior").toList) (lowerL job.title)

/-- Claim C3 tier (b): "mid" occurs in the seniority field or the character
"5" or "7" occurs in the required-experience text. -/
def midTierCond (job : Job) : Bool :=
  hasSub (("mid").toList) (lowerL job.seniority_level)
    || hasSub (("5").toList) (lowerL job.required_experience)
    || hasSub (("7").toList) (lowerL job.required_experience)

/-- Claim C3 tier (c): "director" or "principal" occurs in the title. -/
def directorTierCond (job : Job) : Bool :=
  hasSub (("director").toList) (lowerL job.title)
    || hasSub (("principal").toList) (lowerL job.title)

/-- Claim C7 relevance score, restated from the claim: the number of the
relevanceKeywords of the record occurring as substrings in the lowercased
space-joined concatenation of title, description and company, plus a flat
+2 bonus when the company name case-insensitively matches one of the
associated companies of the record. -/
def relevanceScoreSpec (r : ExperienceRecord)
    (company_name job_title job_description : Str) : ℕ :=
  keywordCount r (jobText company_name job_title job_description)
    + (if companyMatch r company_name then 2 else 0)

/- ### Concrete inputs used by counterexamples and witnesses -/

/-- The end-to-end scenario job of claim C4 / spec §8.7: absent fields are
the empty string, and no personal connections were attached. -/
def pm_ai_job : Job :=
  ⟨("Senior Product Manager, AI Platform").toList,
   ("OpenAI").toList,
   ("Remote").toList,
   ("Remote").toList,
   ("Requires machine learning and LLM experience, 5 years").toList,
   [], [], []⟩

/-- A concrete role variant for the `zillow` override key. -/
def test_variant : RoleVariant :=
  ⟨("zr").toList, ("zs").toList, [("zb").toList]⟩

/-- A concrete small kit whose `role_variants` has a `zillow` entry. -/
def base_kit : Kit :=
  ⟨("N").toList, ("L").toList, ("P").toList, ("E").toList, ("K").toList,
   ("T").toList, ("S").toList,
   [("g1").toList, ("g2").toList],
   [], [],
   ("Ed").toList,
   [], ("kw").toList,
   [(("zillow").toList, test_variant)],
   [],
   [("x1").toList], [("p1").toList],
   [], [],
   ("dkw").toList,
   [], []⟩

/-- A concrete engine built from `base_kit`. -/
def test_engine : Engine := ⟨base_kit, base_kit⟩

/-- A director-level job at a company matching the `zillow` override. -/
def director_zillow_job : Job :=
  ⟨("Director of Product").toList, ("Zillow Group").toList,
   [], [], [], [], [], []⟩

/-- A senior-level job at a company matching the `zillow` override. -/
def senior_zillow_job : Job :=
  ⟨("Senior Product Manager").toList, ("Zillow Group").toList,
   [], [], [], [], [], []⟩

/- ### Theorems -/

/-- C1: for every job input (absent fields reading as empty strings and any
personal-connection list), every weighted contribution of the scorer is
non-negative and the returned match score lies in [0, 1], the total being
clamped to at most 1.0 at the end. -/
theorem score_in_unit_interval (job : Job) :
    0 ≤ title_contrib job ∧ 0 ≤ seniority_contrib job
      ∧ 0 ≤ technical_contrib job ∧ 0 ≤ location_contrib job
      ∧ 0 ≤ connection_contrib job
      ∧ 0 ≤ calculate_match_score job ∧ calculate_match_score job ≤ 1 := by
  have h1 : 0 ≤ title_contrib job := by
    unfold title_contrib; split_ifs <;> norm_num
  have h2 : 0 ≤ seniority_contrib job := by
    unfold seniority_contrib; split_ifs <;> norm_num
  have h3 : 0 ≤ technical_contrib job := by
    unfold technical_contrib; split_ifs <;> norm_num
  have h4 : 0 ≤ location_contrib job := by
    unfold location_contrib; split_ifs <;> norm_num
  have h5 : 0 ≤ connection_contrib job := by
    unfold connection_contrib; split_ifs <;> norm_num
  refine ⟨h1, h2, h3, h4, h5, ?_, ?_⟩
  · exact le_min (by linarith) (by norm_num)
  · exact min_le_right _ _

/-- C2: priority bucketing is a pure threshold function of the score:
HIGH iff the score is at least 0.70, MEDIUM iff it is in [0.50, 0.70), LOW
iff it is below 0.50; in particular 0.70 gives HIGH, 0.6999 gives MEDIUM
and 0.4999 gives LOW. -/
theorem priority_thresholds (s : ℚ) :
    (priority_of s = Priority.HIGH ↔ 7/10 ≤ s)
      ∧ (priority_of s = Priority.MEDIUM ↔ 1/2 ≤ s ∧ s < 7/10)
      ∧ (priority_of s = Priority.LOW ↔ s < 1/2)
      ∧ priority_of (70/100) = Priority.HIGH
      ∧ priority_of (6999/10000) = Priority.MEDIUM
      ∧ priority_of (4999/10000) = Priority.LOW := by
  refine ⟨?_, ?_, ?_, ?_, ?_, ?_⟩
  · unfold priority_of
    split_ifs with h1 h2 <;> simp_all
  · unfold priority_of
    split_ifs with h1 h2 <;> simp_all
  · unfold priority_of
    split_ifs with h1 h2 <;> simp_all
    all_goals linarith
  · unfold priority_of
    norm_num
  · unfold priority_of
    norm_num
  · unfold priority_of
    norm_num

/-- C3: the seniority contribution is decided by at most one tier, first
match wins, in the order (a) "senior" in the lowercased seniority field or
title gives 0.8 of the 0.20 weight, else (b) "mid" in the seniority field or
a "5" or "7" in the required-experience text gives the full 0.20 weight,
else (c) "director" or "principal" in the title gives 0.6 of it, else 0 —
so no job ever combines two tiers. -/
theorem seniority_first_match_wins (job : Job) :
    seniority_contrib job =
      (if seniorTierCond job then (8/10 : ℚ) * (1/5)
       else if midTierCond job then (1 : ℚ) * (1/5)
       else if directorTierCond job then (6/10 : ℚ) * (1/5)
       else 0) := by
  unfold seniority_contrib seniorTierCond midTierCond directorTierCond
  split_ifs <;> norm_num

/-- C4 counterexample: on the scenario job of the claim, the seniority
contribution is 0.8 of the 0.20 weight — rule (a) fires because "senior"
occurs in the title — not the full 0.20 weight that the claim attributes to
the "mid" rule, and consequently the total is not the 0.85 the claimed
components would sum to. -/
theorem pm_ai_job_not_mid_rule :
    seniority_contrib pm_ai_job ≠ (1 : ℚ) * (1/5)
      ∧ calculate_match_score pm_ai_job ≠ 85/100 := by
  have hs : seniority_contrib pm_ai_job = (1/5 : ℚ) * (8/10) := rfl
  have ht : calculate_match_score pm_ai_job =
      min (((1/4 : ℚ) * (7/10) + (1/4 : ℚ) * (3/10)) + (1/5 : ℚ) * (8/10)
        + (1/4 : ℚ) + (3/20 : ℚ) + 0) 1 := rfl
  constructor
  · rw [hs]; norm_num
  · rw [ht]; norm_num

/-- C4 amended: on the scenario job, the technical contribution is the full
0.25 (two keyword matches), the location contribution the full 0.15, the
title contribution 0.25 (both sub-rules match), but the seniority
contribution is 0.8 of the 0.20 weight via rule (a) ("senior" occurs in the
title, which wins over the "mid" rule), for a total score of 0.81 and
priority HIGH. -/
theorem pm_ai_job_scoring :
    title_contrib pm_ai_job = 25/100
      ∧ seniority_contrib pm_ai_job = (8/10 : ℚ) * (20/100)
      ∧ technical_contrib pm_ai_job = 25/100
      ∧ location_contrib pm_ai_job = 15/100
      ∧ connection_contrib pm_ai_job = 0
      ∧ calculate_match_score pm_ai_job = 81/100
      ∧ priority_of (calculate_match_score pm_ai_job) = Priority.HIGH := by
  have h1 : title_contrib pm_ai_job = (1/4 : ℚ) * (7/10) + (1/4 : ℚ) * (3/10) := rfl
  have h2 : seniority_contrib pm_ai_job = (1/5 : ℚ) * (8/10) := rfl
  have h3 : technical_contrib pm_ai_job = (1/4 : ℚ) := rfl
  have h4 : location_contrib pm_ai_job = (3/20 : ℚ) := rfl
  have h5 : connection_contrib pm_ai_job = 0 := rfl
  have ht : calculate_match_score pm_ai_job =
      min (((1/4 : ℚ) * (7/10) + (1/4 : ℚ) * (3/10)) + (1/5 : ℚ) * (8/10)
        + (1/4 : ℚ) + (3/20 : ℚ) + 0) 1 := rfl
  have hscore : calculate_match_score pm_ai_job = 81/100 := by
    rw [ht]; norm_num
  refine ⟨by rw [h1]; norm_num, by rw [h2]; norm_num, by rw [h3]; norm_num,
    by rw [h4]; norm_num, h5, hscore, ?_⟩
  rw [hscore]
  unfold priority_of
  norm_num

/-- C5: `select_achievements` is deterministic — identical inputs give the
identical ordered output — and its sort is stable: the ranked list is
sorted by descending score with equal-score achievements kept in their
original bank order (`rankLE` orders first by strictly larger score, then
by original position), and it is a permutation of the scored bank. -/
theorem select_achievements_deterministic_stable
    (d : Str) (bank : List Str) (count : ℕ) :
    select_achievements d bank count = select_achievements d bank count
      ∧ List.Sorted rankLE (rankedAchievements d bank)
      ∧ List.Perm (rankedAchievements d bank) (scoredAchievements d bank) :=
  ⟨rfl, List.sorted_insertionSort rankLE _, List.perm_insertionSort rankLE _⟩

/-- C6: `select_achievements` returns at most `count` items, every returned
item belongs to the bank, an empty bank yields the empty list, and when
`count` is at least the bank size the output is exactly the whole bank (as
a permutation). -/
theorem select_achievements_bounds (d : Str) (bank : List Str) (count : ℕ) :
    (select_achievements d bank count).length ≤ count
      ∧ (∀ a, a ∈ select_achievements d bank count → a ∈ bank)
      ∧ select_achievements d [] count = []
      ∧ (bank.length ≤ count →
          List.Perm (select_achievements d bank count) bank) := by
  have hmap : ((scoredAchievements d bank).map (fun t => t.2.2)) = bank := by
    unfold scoredAchievements
    rw [List.map_map]
    exact List.enum_map_snd bank
  have hperm : List.Perm ((rankedAchievements d bank).map (fun t => t.2.2)) bank := by
    have h1 : List.Perm ((rankedAchievements d bank).map (fun t => t.2.2))
        ((scoredAchievements d bank).map (fun t => t.2.2)) :=
      (List.perm_insertionSort rankLE _).map _
    rw [hmap] at h1
    exact h1
  refine ⟨?_, ?_, ?_, ?_⟩
  · unfold select_achievements
    split_ifs with hb
    · simp
    · exact List.length_take_le count _
  · intro a ha
    unfold select_achievements at ha
    split_ifs at ha with hb
    · simp at ha
    · exact hperm.mem_iff.mp (List.mem_of_mem_take ha)
  · rfl
  · intro hcount
    unfold select_achievements
    split_ifs with hb
    · rw [hb]
    · rw [List.take_of_length_le (by rw [hperm.length_eq]; exact hcount)]
      exact hperm

/-- C7: for every input, `find_connections` keeps exactly the records whose
relevance score — keyword-occurrence count in the lowercased space-joined
(title, description, company) text plus a flat +2 company-match bonus — is
positive, carrying that score; the kept records are stably sorted by
descending score (equal scores keep their original record order) and at
most the top 3 are returned. -/
theorem find_connections_spec (records : List ExperienceRecord)
    (company_name job_title job_description : Str) :
    keptExperiences records company_name job_title job_description
        = records.filterMap (fun r =>
            if 0 < relevanceScoreSpec r company_name job_title job_description then
              some ⟨r.key, r.description, r.metrics, r.talking_point,
                relevanceScoreSpec r company_name job_title job_description⟩
            else none)
      ∧ List.Sorted rankLE
          (sortedKept records company_name job_title job_description)
      ∧ List.Perm (sortedKept records company_name job_title job_description)
          (scoredKept records company_name job_title job_description)
      ∧ relevantExperiencesCore records company_name job_title job_description
          = ((sortedKept records company_name job_title job_description).map
              (fun t => t.2.2)).take 3
      ∧ (find_connections company_name job_title job_description).length ≤ 3
      ∧ find_connections company_name job_title job_description
          = relevantExperiencesCore experiences company_name job_title
              job_description := by
  refine ⟨?_, List.sorted_insertionSort rankLE _,
    List.perm_insertionSort rankLE _, rfl, ?_, rfl⟩
  · unfold keptExperiences
    refine congrArg (fun f => List.filterMap f records) (funext ?_)
    intro r
    unfold relevanceScoreSpec
    cases hcm : companyMatch r company_name <;> split_ifs <;> simp_all
  · unfold find_connections relevantExperiencesCore
    exact List.length_take_le 3 _

/-- Witness for C6 at concrete inputs: the hypotheses of
`select_achievements_bounds` are satisfiable and its conclusions evaluate. -/
theorem select_achievements_bounds_witness :
    (select_achievements (("automation").toList)
        [("alpha").toList, ("beta").toList] 1).length ≤ 1
      ∧ ("alpha").toList ∈ [("alpha").toList, ("beta").toList]
      ∧ List.Perm (select_achievements (("automation").toList)
          [("alpha").toList, ("beta").toList] 5)
          [("alpha").toList, ("beta").toList] :=
  ⟨(select_achievements_bounds (("automation").toList)
      [("alpha").toList, ("beta").toList] 1).1,
   (select_achievements_bounds (("automation").toList)
      [("alpha").toList, ("beta").toList] 1).2.1 (("alpha").toList) (by decide),
   (select_achievements_bounds (("automation").toList)
      [("alpha").toList, ("beta").toList] 5).2.2.2 (by decide)⟩

/-- C8: kit-variant selection is a pure function of the title alone:
"director" exactly when the lowercased title contains one of the six
director indicators, "senior" otherwise; in particular "Director of
Product" gives "director" and "Senior Product Manager" gives "senior". -/
theorem variant_selection_pure (title : Str) :
    (get_variant_for_role title = ("director").toList
        ↔ director_indicators.any (fun ind => hasSub ind (lowerL title)) = true)
      ∧ (get_variant_for_role title = ("senior").toList
        ↔ director_indicators.any (fun ind => hasSub ind (lowerL title)) = false)
      ∧ get_variant_for_role (("Director of Product").toList) = ("director").toList
      ∧ get_variant_for_role (("Senior Product Manager").toList) = ("senior").toList := by
  have hne : ("director").toList ≠ ("senior").toList := by decide
  refine ⟨?_, ?_, by decide, by decide⟩
  · unfold get_variant_for_role
    split_ifs with h
    · simp [h]
    · simp [h, hne]
  · unfold get_variant_for_role
    split_ifs with h
    · simp [h, hne]
    · simp [h]

/-- C9 counterexample: for the director-level job at "Zillow Group" the
company override matches and its title line is used, yet the override top
bullet is not prepended anywhere in the rendered resume — the director
branch of `render_resume` never emits the override bullets, refuting the
claim text "for every job whose company matches an override". -/
theorem director_override_bullets_dropped :
    get_company_variant test_engine.senior_kit director_zillow_job.company
        = some test_variant
      ∧ (("**").toList ++ ("zr").toList ++ ("**").toList)
          ∈ render_resume_lines test_engine director_zillow_job
      ∧ bline (("zb").toList) ∉ render_resume_lines test_engine director_zillow_job :=
  ⟨by decide, by decide, by decide⟩

/-- C9 amended: the company-override lookup matches case-insensitive
substrings of the 4 hardcoded keys ("Zillow Group" selects the `zillow`
entry); whenever an override matches, the rendered resume uses the
override title and summary in place of the generic kit title and summary;
the override top bullets are prepended ahead of the generic outcome
bullets only when the senior kit variant is rendered (non-director titles)
— the director branch keeps its executive-summary/portfolio sections and
drops the override bullets; and a non-matching company gets the generic kit
content throughout, for the senior and the director variant alike. -/
theorem company_override_rendering (eng : Engine) (job : Job) :
    (∀ v, get_company_variant eng.senior_kit job.company = some v →
      get_variant_for_role job.title ≠ ("director").toList →
      render_resume_lines eng job =
        headerBlock eng.senior_kit
          ++ [("**").toList ++ v.role ++ ("**").toList]
          ++ [v.summary, []]
          ++ ([("**signature outcomes**").toList]
              ++ v.top_bullets.map bline
              ++ (eng.senior_kit.signature_outcomes.take 5).map bline ++ [[]])
          ++ skillsBlock false eng.senior_kit
          ++ experienceBlock false eng.senior_kit.achievements_bank
              job.description eng.senior_kit
          ++ tailBlock false eng.senior_kit)
      ∧ (get_company_variant eng.senior_kit job.company = none →
          get_variant_for_role job.title ≠ ("director").toList →
          render_resume_lines eng job =
            headerBlock eng.senior_kit
              ++ [("**").toList ++ eng.senior_kit.header_title ++ ("**").toList]
              ++ [eng.senior_kit.summary, []]
              ++ ([("**signature outcomes**").toList]
                  ++ (eng.senior_kit.signature_outcomes.take 5).map bline ++ [[]])
              ++ skillsBlock false eng.senior_kit
              ++ experienceBlock false eng.senior_kit.achievements_bank
                  job.description eng.senior_kit
              ++ tailBlock false eng.senior_kit)
      ∧ (get_company_variant eng.senior_kit job.company = none →
          get_variant_for_role job.title = ("director").toList →
          render_resume_lines eng job =
            headerBlock eng.director_kit
              ++ [("**").toList ++ eng.director_kit.header_title ++ ("**").toList]
              ++ [eng.director_kit.summary, []]
              ++ ([("**executive summary (what you get)**").toList]
                  ++ eng.director_kit.executive_summary.map bline ++ [[]]
                  ++ [("**select portfolio outcomes**").toList]
                  ++ eng.director_kit.portfolio_outcomes.map bline ++ [[]])
              ++ skillsBlock true eng.director_kit
              ++ experienceBlock true eng.senior_kit.achievements_bank
                  job.description eng.director_kit
              ++ tailBlock true eng.director_kit)
      ∧ (∀ v, get_company_variant eng.senior_kit job.company = some v →
          get_variant_for_role job.title = ("director").toList →
          render_resume_lines eng job =
            headerBlock eng.director_kit
              ++ [("**").toList ++ v.role ++ ("**").toList]
              ++ [v.summary, []]
              ++ ([("**executive summary (what you get)**").toList]
                  ++ eng.director_kit.executive_summary.map bline ++ [[]]
                  ++ [("**select portfolio outcomes**").toList]
                  ++ eng.director_kit.portfolio_outcomes.map bline ++ [[]])
              ++ skillsBlock true eng.director_kit
              ++ experienceBlock true eng.senior_kit.achievements_bank
                  job.description eng.director_kit
              ++ tailBlock true eng.director_kit)
      ∧ (∀ sk : Kit, get_company_variant sk (("Zillow Group").toList)
          = varLookup sk (("zillow").toList)) := by
  refine ⟨?_, ?_, ?_, ?_, ?_⟩
  · intro v hv hnd
    unfold render_resume_lines
    rw [if_neg hnd, hv]
    simp [titleBlock, summaryBlock, outcomesBlock]
  · intro hv hnd
    unfold render_resume_lines
    rw [if_neg hnd, hv]
    simp [titleBlock, summaryBlock, outcomesBlock]
  · intro hv hd
    unfold render_resume_lines
    rw [if_pos hd, hv]
    simp [titleBlock, summaryBlock, outcomesBlock]
  · intro v hv hd
    unfold render_resume_lines
    rw [if_pos hd, hv]
    simp [titleBlock, summaryBlock, outcomesBlock]
  · intro sk
    have h1 : hasSub (("sparkplug").toList) (lowerL (("Zillow Group").toList))
        = false := by decide
    have h2 : hasSub (("zillow").toList) (lowerL (("Zillow Group").toList))
        = true := by decide
    unfold get_company_variant
    simp only [h1, h2]
    simp

/-- Witness for the amended C9 theorem at concrete inputs: the senior-level
job at "Zillow Group" renders with the override title, summary and
prepended top bullet. -/
theorem company_override_rendering_witness :
    render_resume_lines test_engine senior_zillow_job =
      headerBlock test_engine.senior_kit
        ++ [("**").toList ++ test_variant.role ++ ("**").toList]
        ++ [test_variant.summary, []]
        ++ ([("**signature outcomes**").toList]
            ++ test_variant.top_bullets.map bline
            ++ (test_engine.senior_kit.signature_outcomes.take 5).map bline
            ++ [[]])
        ++ skillsBlock false test_engine.senior_kit
        ++ experienceBlock false test_engine.senior_kit.achievements_bank
            senior_zillow_job.description test_engine.senior_kit
        ++ tailBlock false test_engine.senior_kit :=
  (company_override_rendering test_engine senior_zillow_job).1 test_variant
    (by decide) (by decide)

/-- C10: the 90-day-plan customization of `render_cover_letter` applies at
most one rewrite, with fixed precedence over the lowercased job
description: "platform" rewrites the pilots clause and suppresses the
others; otherwise "data" rewrites the pilots clause; otherwise "revenue" or
"growth" rewrites the success-metrics clause; otherwise the letter is
unchanged. -/
theorem cover_letter_single_rewrite (eng : Engine) (job : Job)
    (dl letter : Str) :
    render_cover_letter eng job
        = customize_ninety_day (lowerL job.description) (pre_rewrite_letter eng job)
      ∧ (hasSub (("platform").toList) dl = true →
          customize_ninety_day dl letter
            = replaceAll pilots_phrase platform_clause letter)
      ∧ (hasSub (("platform").toList) dl = false →
          hasSub (("data").toList) dl = true →
          customize_ninety_day dl letter
            = replaceAll pilots_phrase data_clause letter)
      ∧ (hasSub (("platform").toList) dl = false →
          hasSub (("data").toList) dl = false →
          (hasSub (("revenue").toList) dl || hasSub (("growth").toList) dl) = true →
          customize_ninety_day dl letter
            = replaceAll metrics_phrase revenue_clause letter)
      ∧ (hasSub (("platform").toList) dl = false →
          hasSub (("data").toList) dl = false →
          (hasSub (("revenue").toList) dl || hasSub (("growth").toList) dl) = false →
          customize_ninety_day dl letter = letter) := by
  refine ⟨rfl, ?_, ?_, ?_, ?_⟩ <;> intros <;> unfold customize_ninety_day <;>
    simp_all

/-- Witness for C10 at concrete inputs: a description containing
"platform", "data" and "growth" triggers exactly the platform rewrite. -/
theorem cover_letter_single_rewrite_witness :
    customize_ninety_day (("platform data growth").toList)
        (("a 1–2 high-leverage pilots b").toList)
      = replaceAll pilots_phrase platform_clause
          (("a 1–2 high-leverage pilots b").toList) :=
  (cover_letter_single_rewrite test_engine senior_zillow_job
    (("platform data growth").toList)
    (("a 1–2 high-leverage pilots b").toList)).2.1 (by decide)

end JobSearch
